import Mathlib

/-!
# Verification of the Peak Power year-end reconciliation risk-scoring engine

Shallow embedding of `src/scoring_rules.py` (the four per-row scoring
functions and the shared risk-band classifier) together with the per-row
flag semantics of `src/validator.py` that the claims reference.

A data row is modelled as a partial map from field names to values, which
mirrors the Python per-row dict access `row.get(key, default)`.  Scores are
natural numbers (the Python code only adds non-negative integer weights to
the integer base 5); the classifier takes a rational, mirroring its
`float` parameter.
-/

/-- A field value as seen by the scoring code: a boolean flag or a number. -/
inductive Val where
  | b (x : Bool)
  | num (x : ℚ)
deriving DecidableEq

/-- Python truthiness of a value, as applied by `bool(...)` in the scorers. -/
def Val.toBool : Val → Bool
  | .b x => x
  | .num x => decide (x ≠ 0)

/-- Python numeric coercion of a value, as applied by `float(...)`. -/
def Val.toRat : Val → ℚ
  | .b x => if x then 1 else 0
  | .num x => x

/-- A data row: a partial map from field names to values. -/
abbrev Row := String → Option Val

/-- `bool(row.get(k, False))`: read a flag, defaulting a missing field to false. -/
def rowGetBool (r : Row) (k : String) : Bool :=
  match r k with
  | some v => v.toBool
  | none => false

/-- `float(row.get(k, 0.0))`: read a numeric field, defaulting to 0. -/
def rowGetRat (r : Row) (k : String) : ℚ :=
  match r k with
  | some v => v.toRat
  | none => 0

/-- Set one field of a row (column assignment restricted to a single row). -/
def Row.update (r : Row) (k : String) (v : Val) : Row :=
  fun k' => if k' = k then some v else r k'

/-- Build a row from an association list of fields. -/
def Row.ofList (l : List (String × Val)) : Row :=
  fun k => (l.find? (fun p => p.1 = k)).map Prod.snd

/-- `classify_risk` from scoring_rules.py: the shared four-band mapper. -/
def classify_risk (score : ℚ) : String :=
  if score ≤ 20 then "Low (5–15%)"
  else if score ≤ 40 then "Medium (20–40%)"
  else if score ≤ 70 then "High (50–80%)"
  else "Critical (85–99%)"

/-! ## Model A — AP ↔ GL discrepancy risk (`score_ap_row`) -/

/-- The additive part of `score_ap_row`: base 5 plus individual weights and
the `missing_in_GL` combo bump, in source order. -/
def apRaw (missing_in_GL amount_mismatch late_posting duplicate unusual_gl : Bool) : ℕ :=
  5 + (if late_posting then 10 else 0)
    + (if amount_mismatch then 30 else 0)
    + (if unusual_gl then 25 else 0)
    + (if duplicate then 40 else 0)
    + (if missing_in_GL then
        60 + (if amount_mismatch || duplicate || late_posting || unusual_gl then 20 else 0)
      else 0)

/-- `sum([...])` over the five AP flags. -/
def apFlagCount (missing_in_GL amount_mismatch late_posting duplicate unusual_gl : Bool) : ℕ :=
  (if missing_in_GL then 1 else 0) + (if amount_mismatch then 1 else 0)
    + (if late_posting then 1 else 0) + (if duplicate then 1 else 0)
    + (if unusual_gl then 1 else 0)

/-- Body of `score_ap_row` after the flag reads: additive score, floor rule
at 3 flags (max with 90), clamp at 100, then classify. -/
def apEval (missing_in_GL amount_mismatch late_posting duplicate unusual_gl : Bool) :
    ℕ × String :=
  let score := apRaw missing_in_GL amount_mismatch late_posting duplicate unusual_gl
  let score2 :=
    if 3 ≤ apFlagCount missing_in_GL amount_mismatch late_posting duplicate unusual_gl then
      max score 90
    else score
  let score3 := min score2 100
  (score3, classify_risk (score3 : ℚ))

/-- `score_ap_row` from scoring_rules.py. -/
def score_ap_row (row : Row) : ℕ × String :=
  apEval (rowGetBool row "missing_in_GL") (rowGetBool row "amount_mismatch")
    (rowGetBool row "late_posting") (rowGetBool row "duplicate_invoice_number")
    (rowGetBool row "unusual_GL_account")

/-! ## Model B — Bank ↔ AP discrepancy risk (`score_bank_row`) -/

/-- The additive part of `score_bank_row`, in source order. -/
def bankRaw (no_match inv_paid_no_bank duplicate_payment amount_mismatch unusual_vendor : Bool) :
    ℕ :=
  5 + (if unusual_vendor then 10 else 0)
    + (if amount_mismatch then 25 else 0)
    + (if inv_paid_no_bank then 40 else 0)
    + (if no_match then 50 else 0)
    + (if duplicate_payment then 60 else 0)
    + (if duplicate_payment && amount_mismatch then 15 else 0)
    + (if no_match && (duplicate_payment || amount_mismatch || unusual_vendor || inv_paid_no_bank)
        then 20 else 0)

/-- `sum([...])` over the five Bank flags. -/
def bankFlagCount
    (no_match inv_paid_no_bank duplicate_payment amount_mismatch unusual_vendor : Bool) : ℕ :=
  (if no_match then 1 else 0) + (if inv_paid_no_bank then 1 else 0)
    + (if duplicate_payment then 1 else 0) + (if amount_mismatch then 1 else 0)
    + (if unusual_vendor then 1 else 0)

/-- Body of `score_bank_row` after the flag reads. -/
def bankEval
    (no_match inv_paid_no_bank duplicate_payment amount_mismatch unusual_vendor : Bool) :
    ℕ × String :=
  let score := bankRaw no_match inv_paid_no_bank duplicate_payment amount_mismatch unusual_vendor
  let score2 :=
    if 3 ≤ bankFlagCount no_match inv_paid_no_bank duplicate_payment amount_mismatch
        unusual_vendor then
      max score 90
    else score
  let score3 := min score2 100
  (score3, classify_risk (score3 : ℚ))

/-- `score_bank_row` from scoring_rules.py. -/
def score_bank_row (row : Row) : ℕ × String :=
  bankEval (rowGetBool row "no_matching_invoice")
    (rowGetBool row "invoice_marked_paid_but_no_bank_txn")
    (rowGetBool row "duplicate_payment") (rowGetBool row "amount_mismatch")
    (rowGetBool row "unusual_vendor_payment")

/-! ## Model C — Sales & Use Tax discrepancy risk (`score_tax_row`) -/

/-- The additive part of `score_tax_row`, in source order, including the
numeric `tax_diff_abs > 5` bump and the three combo bonuses. -/
def taxRaw (rate_mismatch tax_missing tax_on_non_taxable jurisdiction_missing
    gl_tax_diff_flag : Bool) (tax_diff_abs : ℚ) : ℕ :=
  5 + (if jurisdiction_missing then 15 else 0)
    + (if rate_mismatch then 30 else 0)
    + (if tax_missing then 40 else 0)
    + (if tax_on_non_taxable then 35 else 0)
    + (if gl_tax_diff_flag then 25 else 0)
    + (if 5 < tax_diff_abs then 10 else 0)
    + (if tax_missing && rate_mismatch then 65 else 0)
    + (if tax_missing && gl_tax_diff_flag then 70 else 0)
    + (if tax_on_non_taxable && rate_mismatch then 60 else 0)

/-- `sum([...])` over the five Tax flags (the numeric field is not a flag). -/
def taxFlagCount (rate_mismatch tax_missing tax_on_non_taxable jurisdiction_missing
    gl_tax_diff_flag : Bool) : ℕ :=
  (if rate_mismatch then 1 else 0) + (if tax_missing then 1 else 0)
    + (if tax_on_non_taxable then 1 else 0) + (if jurisdiction_missing then 1 else 0)
    + (if gl_tax_diff_flag then 1 else 0)

/-- Body of `score_tax_row` after the field reads: floor 85 at 3 flags. -/
def taxEval (rate_mismatch tax_missing tax_on_non_taxable jurisdiction_missing
    gl_tax_diff_flag : Bool) (tax_diff_abs : ℚ) : ℕ × String :=
  let score := taxRaw rate_mismatch tax_missing tax_on_non_taxable jurisdiction_missing
    gl_tax_diff_flag tax_diff_abs
  let score2 :=
    if 3 ≤ taxFlagCount rate_mismatch tax_missing tax_on_non_taxable jurisdiction_missing
        gl_tax_diff_flag then
      max score 85
    else score
  let score3 := min score2 100
  (score3, classify_risk (score3 : ℚ))

/-- `score_tax_row` from scoring_rules.py. -/
def score_tax_row (row : Row) : ℕ × String :=
  taxEval (rowGetBool row "rate_mismatch") (rowGetBool row "tax_missing")
    (rowGetBool row "tax_on_nontaxable_item") (rowGetBool row "jurisdiction_missing")
    (rowGetBool row "gl_tax_diff_flag") (rowGetRat row "tax_diff_abs")

/-! ## Model D — Lease (ASC 842) discrepancy risk (`score_lease_row`) -/

/-- The additive part of `score_lease_row`, in source order. -/
def leaseRaw (liab_diff_flag rou_diff_flag missing_periods incorrect_opening
    classification_flag ip_mismatch : Bool) : ℕ :=
  5 + (if liab_diff_flag then 20 else 0)
    + (if rou_diff_flag then 20 else 0)
    + (if missing_periods then 40 else 0)
    + (if incorrect_opening then 50 else 0)
    + (if classification_flag then 45 else 0)
    + (if ip_mismatch then 50 else 0)
    + (if liab_diff_flag && missing_periods then 30 else 0)
    + (if rou_diff_flag && incorrect_opening then 35 else 0)

/-- `sum([...])` over the six Lease flags. -/
def leaseFlagCount (liab_diff_flag rou_diff_flag missing_periods incorrect_opening
    classification_flag ip_mismatch : Bool) : ℕ :=
  (if liab_diff_flag then 1 else 0) + (if rou_diff_flag then 1 else 0)
    + (if missing_periods then 1 else 0) + (if incorrect_opening then 1 else 0)
    + (if classification_flag then 1 else 0) + (if ip_mismatch then 1 else 0)

/-- Body of `score_lease_row` after the flag reads: floor 90 at 3 flags. -/
def leaseEval (liab_diff_flag rou_diff_flag missing_periods incorrect_opening
    classification_flag ip_mismatch : Bool) : ℕ × String :=
  let score := leaseRaw liab_diff_flag rou_diff_flag missing_periods incorrect_opening
    classification_flag ip_mismatch
  let score2 :=
    if 3 ≤ leaseFlagCount liab_diff_flag rou_diff_flag missing_periods incorrect_opening
        classification_flag ip_mismatch then
      max score 90
    else score
  let score3 := min score2 100
  (score3, classify_risk (score3 : ℚ))

/-- `score_lease_row` from scoring_rules.py. -/
def score_lease_row (row : Row) : ℕ × String :=
  leaseEval (rowGetBool row "schedule_to_GL_liability_diff_flag")
    (rowGetBool row "schedule_to_GL_ROU_diff_flag") (rowGetBool row "missing_periods")
    (rowGetBool row "incorrect_opening_entry") (rowGetBool row "classification_flag")
    (rowGetBool row "ip_sum_mismatch")

/-! ## Flag-field name sets per domain -/

/-- The AP flag fields read by `score_ap_row`. -/
def apFlagKeys : List String :=
  ["missing_in_GL", "amount_mismatch", "late_posting", "duplicate_invoice_number",
   "unusual_GL_account"]

/-- The Bank flag fields read by `score_bank_row`. -/
def bankFlagKeys : List String :=
  ["no_matching_invoice", "invoice_marked_paid_but_no_bank_txn", "duplicate_payment",
   "amount_mismatch", "unusual_vendor_payment"]

/-- The Tax boolean flag fields read by `score_tax_row`. -/
def taxFlagKeys : List String :=
  ["rate_mismatch", "tax_missing", "tax_on_nontaxable_item", "jurisdiction_missing",
   "gl_tax_diff_flag"]

/-- The Lease flag fields read by `score_lease_row`. -/
def leaseFlagKeys : List String :=
  ["schedule_to_GL_liability_diff_flag", "schedule_to_GL_ROU_diff_flag", "missing_periods",
   "incorrect_opening_entry", "classification_flag", "ip_sum_mismatch"]

/-! ## Flag detection pieces from validator.py used by the claims -/

/-- Per-row semantics of validator.py line 60:
`ap["amount_mismatch"] = (ap["Total_Invoice_Amount"] - ap["Expected_Total"]).abs() > 25`. -/
def ap_amount_mismatch (total expected : ℚ) : Bool :=
  decide (25 < |total - expected|)

/-- Per-row effect of validator.py line 109:
`bank["invoice_marked_paid_but_no_bank_txn"] = False` before scoring. -/
def bank_prepare (r : Row) : Row :=
  r.update "invoice_marked_paid_but_no_bank_txn" (Val.b false)

/-- Per-row effect of validator.py lines 179–180:
`leases["incorrect_opening_entry"] = False` and
`leases["classification_flag"] = False` before scoring. -/
def lease_prepare (r : Row) : Row :=
  (r.update "incorrect_opening_entry" (Val.b false)).update "classification_flag" (Val.b false)

/-! ## Helper lemmas on row reads and updates -/

lemma rowGetBool_update_self (r : Row) (k : String) (x : Bool) :
    rowGetBool (r.update k (Val.b x)) k = x := by
  simp [rowGetBool, Row.update, Val.toBool]

lemma rowGetBool_update_ne (r : Row) (k k' : String) (v : Val) (h : k' ≠ k) :
    rowGetBool (r.update k v) k' = rowGetBool r k' := by
  simp [rowGetBool, Row.update, h]

lemma rowGetRat_update_ne (r : Row) (k k' : String) (v : Val) (h : k' ≠ k) :
    rowGetRat (r.update k v) k' = rowGetRat r k' := by
  simp [rowGetRat, Row.update, h]

lemma rowGetRat_update_num_self (r : Row) (k : String) (x : ℚ) :
    rowGetRat (r.update k (Val.num x)) k = x := by
  simp [rowGetRat, Row.update, Val.toRat]

lemma rowGetBool_eq_false_of_none (r : Row) (k : String) (h : r k = none) :
    rowGetBool r k = false := by
  simp [rowGetBool, h]

lemma rowGetRat_eq_zero_of_none (r : Row) (k : String) (h : r k = none) :
    rowGetRat r k = 0 := by
  simp [rowGetRat, h]

lemma rowGetBool_congr {r r' : Row} {k : String} (h : r k = r' k) :
    rowGetBool r k = rowGetBool r' k := by
  simp [rowGetBool, h]

lemma rowGetRat_congr {r r' : Row} {k : String} (h : r k = r' k) :
    rowGetRat r k = rowGetRat r' k := by
  simp [rowGetRat, h]

/-! ## Boolean bridge for the tax numeric comparison

`taxRaw`/`taxEval` read the rational `tax_diff_abs` only through the test
`tax_diff_abs > 5`, so they factor through versions that take that test's
outcome as a boolean.  This makes statements about all tax rows decidable. -/

/-- `taxRaw` with the `tax_diff_abs > 5` test precomputed as a boolean. -/
def taxRawB (rate_mismatch tax_missing tax_on_non_taxable jurisdiction_missing
    gl_tax_diff_flag big_diff : Bool) : ℕ :=
  5 + (if jurisdiction_missing then 15 else 0)
    + (if rate_mismatch then 30 else 0)
    + (if tax_missing then 40 else 0)
    + (if tax_on_non_taxable then 35 else 0)
    + (if gl_tax_diff_flag then 25 else 0)
    + (if big_diff then 10 else 0)
    + (if tax_missing && rate_mismatch then 65 else 0)
    + (if tax_missing && gl_tax_diff_flag then 70 else 0)
    + (if tax_on_non_taxable && rate_mismatch then 60 else 0)

/-- `taxEval` with the `tax_diff_abs > 5` test precomputed as a boolean. -/
def taxEvalB (rate_mismatch tax_missing tax_on_non_taxable jurisdiction_missing
    gl_tax_diff_flag big_diff : Bool) : ℕ × String :=
  let score := taxRawB rate_mismatch tax_missing tax_on_non_taxable jurisdiction_missing
    gl_tax_diff_flag big_diff
  let score2 :=
    if 3 ≤ taxFlagCount rate_mismatch tax_missing tax_on_non_taxable jurisdiction_missing
        gl_tax_diff_flag then
      max score 85
    else score
  let score3 := min score2 100
  (score3, classify_risk (score3 : ℚ))

lemma taxRaw_eq_taxRawB (a b c d e : Bool) (t : ℚ) :
    taxRaw a b c d e t = taxRawB a b c d e (decide (5 < t)) := by
  by_cases h : (5 : ℚ) < t <;> simp [taxRaw, taxRawB, h]

lemma taxEval_eq_taxEvalB (a b c d e : Bool) (t : ℚ) :
    taxEval a b c d e t = taxEvalB a b c d e (decide (5 < t)) := by
  simp only [taxEval, taxEvalB, taxRaw_eq_taxRawB]

lemma score_ap_row_eq (r : Row) :
    score_ap_row r = apEval (rowGetBool r "missing_in_GL") (rowGetBool r "amount_mismatch")
      (rowGetBool r "late_posting") (rowGetBool r "duplicate_invoice_number")
      (rowGetBool r "unusual_GL_account") := rfl

lemma score_bank_row_eq (r : Row) :
    score_bank_row r = bankEval (rowGetBool r "no_matching_invoice")
      (rowGetBool r "invoice_marked_paid_but_no_bank_txn")
      (rowGetBool r "duplicate_payment") (rowGetBool r "amount_mismatch")
      (rowGetBool r "unusual_vendor_payment") := rfl

lemma score_tax_row_eq (r : Row) :
    score_tax_row r = taxEvalB (rowGetBool r "rate_mismatch") (rowGetBool r "tax_missing")
      (rowGetBool r "tax_on_nontaxable_item") (rowGetBool r "jurisdiction_missing")
      (rowGetBool r "gl_tax_diff_flag")
      (decide (5 < rowGetRat r "tax_diff_abs")) :=
  taxEval_eq_taxEvalB _ _ _ _ _ _

lemma score_lease_row_eq (r : Row) :
    score_lease_row r = leaseEval (rowGetBool r "schedule_to_GL_liability_diff_flag")
      (rowGetBool r "schedule_to_GL_ROU_diff_flag") (rowGetBool r "missing_periods")
      (rowGetBool r "incorrect_opening_entry") (rowGetBool r "classification_flag")
      (rowGetBool r "ip_sum_mismatch") := rfl

/-! ## Per-domain bound lemmas (decided over all flag combinations) -/

lemma ap_bounds : ∀ m a l d u : Bool,
    5 ≤ (apEval m a l d u).1 ∧ (apEval m a l d u).1 ≤ 100 ∧
      (apEval m a l d u).2 = classify_risk ((apEval m a l d u).1 : ℚ) := by decide

lemma bank_bounds : ∀ n i p a u : Bool,
    5 ≤ (bankEval n i p a u).1 ∧ (bankEval n i p a u).1 ≤ 100 ∧
      (bankEval n i p a u).2 = classify_risk ((bankEval n i p a u).1 : ℚ) := by decide

lemma tax_bounds : ∀ a b c d e x : Bool,
    5 ≤ (taxEvalB a b c d e x).1 ∧ (taxEvalB a b c d e x).1 ≤ 100 ∧
      (taxEvalB a b c d e x).2 = classify_risk ((taxEvalB a b c d e x).1 : ℚ) := by decide

lemma lease_bounds : ∀ l r m o c i : Bool,
    5 ≤ (leaseEval l r m o c i).1 ∧ (leaseEval l r m o c i).1 ≤ 100 ∧
      (leaseEval l r m o c i).2 = classify_risk ((leaseEval l r m o c i).1 : ℚ) := by decide

/-- C1: for every input row, each of the four scoring functions returns a
risk score in the interval [0,100] together with the risk band classified
from that score, and the score is never below the base 5. -/
theorem c1_scores_bounded_with_band : ∀ r : Row,
    (5 ≤ (score_ap_row r).1 ∧ (score_ap_row r).1 ≤ 100 ∧
      (score_ap_row r).2 = classify_risk ((score_ap_row r).1 : ℚ)) ∧
    (5 ≤ (score_bank_row r).1 ∧ (score_bank_row r).1 ≤ 100 ∧
      (score_bank_row r).2 = classify_risk ((score_bank_row r).1 : ℚ)) ∧
    (5 ≤ (score_tax_row r).1 ∧ (score_tax_row r).1 ≤ 100 ∧
      (score_tax_row r).2 = classify_risk ((score_tax_row r).1 : ℚ)) ∧
    (5 ≤ (score_lease_row r).1 ∧ (score_lease_row r).1 ≤ 100 ∧
      (score_lease_row r).2 = classify_risk ((score_lease_row r).1 : ℚ)) := by
  intro r
  refine ⟨?_, ?_, ?_, ?_⟩
  · rw [score_ap_row_eq]; exact ap_bounds _ _ _ _ _
  · rw [score_bank_row_eq]; exact bank_bounds _ _ _ _ _
  · rw [score_tax_row_eq]; exact tax_bounds _ _ _ _ _ _
  · rw [score_lease_row_eq]; exact lease_bounds _ _ _ _ _ _

/-! ## Reads after an update -/

lemma rowGetBool_update (r : Row) (k k' : String) (v : Val) :
    rowGetBool (r.update k v) k' = if k' = k then v.toBool else rowGetBool r k' := by
  by_cases h : k' = k <;> simp [rowGetBool, Row.update, h]

lemma rowGetRat_update (r : Row) (k k' : String) (v : Val) :
    rowGetRat (r.update k v) k' = if k' = k then v.toRat else rowGetRat r k' := by
  by_cases h : k' = k <;> simp [rowGetRat, Row.update, h]

/-! ## Per-flag monotonicity lemmas (decided over all flag combinations) -/

lemma ap_mono_missing : ∀ a l d u : Bool,
    (apEval false a l d u).1 ≤ (apEval true a l d u).1 := by decide

lemma ap_mono_amount : ∀ m l d u : Bool,
    (apEval m false l d u).1 ≤ (apEval m true l d u).1 := by decide

lemma ap_mono_late : ∀ m a d u : Bool,
    (apEval m a false d u).1 ≤ (apEval m a true d u).1 := by decide

lemma ap_mono_dup : ∀ m a l u : Bool,
    (apEval m a l false u).1 ≤ (apEval m a l true u).1 := by decide

lemma ap_mono_unusual : ∀ m a l d : Bool,
    (apEval m a l d false).1 ≤ (apEval m a l d true).1 := by decide

lemma bank_mono_nomatch : ∀ i p a u : Bool,
    (bankEval false i p a u).1 ≤ (bankEval true i p a u).1 := by decide

lemma bank_mono_invpaid : ∀ n p a u : Bool,
    (bankEval n false p a u).1 ≤ (bankEval n true p a u).1 := by decide

lemma bank_mono_dup : ∀ n i a u : Bool,
    (bankEval n i false a u).1 ≤ (bankEval n i true a u).1 := by decide

lemma bank_mono_amount : ∀ n i p u : Bool,
    (bankEval n i p false u).1 ≤ (bankEval n i p true u).1 := by decide

lemma bank_mono_unusual : ∀ n i p a : Bool,
    (bankEval n i p a false).1 ≤ (bankEval n i p a true).1 := by decide

lemma tax_mono_rate : ∀ b c d e x : Bool,
    (taxEvalB false b c d e x).1 ≤ (taxEvalB true b c d e x).1 := by decide

lemma tax_mono_missing : ∀ a c d e x : Bool,
    (taxEvalB a false c d e x).1 ≤ (taxEvalB a true c d e x).1 := by decide

lemma tax_mono_nontax : ∀ a b d e x : Bool,
    (taxEvalB a b false d e x).1 ≤ (taxEvalB a b true d e x).1 := by decide

lemma tax_mono_jurisdiction : ∀ a b c e x : Bool,
    (taxEvalB a b c false e x).1 ≤ (taxEvalB a b c true e x).1 := by decide

lemma tax_mono_gl : ∀ a b c d x : Bool,
    (taxEvalB a b c d false x).1 ≤ (taxEvalB a b c d true x).1 := by decide

lemma lease_mono_liab : ∀ r m o c i : Bool,
    (leaseEval false r m o c i).1 ≤ (leaseEval true r m o c i).1 := by decide

lemma lease_mono_rou : ∀ l m o c i : Bool,
    (leaseEval l false m o c i).1 ≤ (leaseEval l true m o c i).1 := by decide

lemma lease_mono_periods : ∀ l r o c i : Bool,
    (leaseEval l r false o c i).1 ≤ (leaseEval l r true o c i).1 := by decide

lemma lease_mono_opening : ∀ l r m c i : Bool,
    (leaseEval l r m false c i).1 ≤ (leaseEval l r m true c i).1 := by decide

lemma lease_mono_classif : ∀ l r m o i : Bool,
    (leaseEval l r m o false i).1 ≤ (leaseEval l r m o true i).1 := by decide

lemma lease_mono_ip : ∀ l r m o c : Bool,
    (leaseEval l r m o c false).1 ≤ (leaseEval l r m o c true).1 := by decide

/-- C2: for each of the four scoring functions and every row, turning any
single flag field of that domain from false to true, holding all other
fields fixed, never decreases the returned risk score. -/
theorem c2_single_flag_monotone : ∀ (r : Row) (k : String),
    (k ∈ apFlagKeys → rowGetBool r k = false →
      (score_ap_row r).1 ≤ (score_ap_row (r.update k (Val.b true))).1) ∧
    (k ∈ bankFlagKeys → rowGetBool r k = false →
      (score_bank_row r).1 ≤ (score_bank_row (r.update k (Val.b true))).1) ∧
    (k ∈ taxFlagKeys → rowGetBool r k = false →
      (score_tax_row r).1 ≤ (score_tax_row (r.update k (Val.b true))).1) ∧
    (k ∈ leaseFlagKeys → rowGetBool r k = false →
      (score_lease_row r).1 ≤ (score_lease_row (r.update k (Val.b true))).1) := by
  intro r k
  refine ⟨?_, ?_, ?_, ?_⟩ <;> intro hk hf
  · simp only [apFlagKeys, List.mem_cons, List.not_mem_nil, or_false] at hk
    rcases hk with rfl | rfl | rfl | rfl | rfl <;>
      simp [score_ap_row_eq, rowGetBool_update, hf, Val.toBool]
    · exact ap_mono_missing _ _ _ _
    · exact ap_mono_amount _ _ _ _
    · exact ap_mono_late _ _ _ _
    · exact ap_mono_dup _ _ _ _
    · exact ap_mono_unusual _ _ _ _
  · simp only [bankFlagKeys, List.mem_cons, List.not_mem_nil, or_false] at hk
    rcases hk with rfl | rfl | rfl | rfl | rfl <;>
      simp [score_bank_row_eq, rowGetBool_update, hf, Val.toBool]
    · exact bank_mono_nomatch _ _ _ _
    · exact bank_mono_invpaid _ _ _ _
    · exact bank_mono_dup _ _ _ _
    · exact bank_mono_amount _ _ _ _
    · exact bank_mono_unusual _ _ _ _
  · simp only [taxFlagKeys, List.mem_cons, List.not_mem_nil, or_false] at hk
    rcases hk with rfl | rfl | rfl | rfl | rfl <;>
      simp [score_tax_row_eq, rowGetBool_update, rowGetRat_update, hf, Val.toBool]
    · exact tax_mono_rate _ _ _ _ _
    · exact tax_mono_missing _ _ _ _ _
    · exact tax_mono_nontax _ _ _ _ _
    · exact tax_mono_jurisdiction _ _ _ _ _
    · exact tax_mono_gl _ _ _ _ _
  · simp only [leaseFlagKeys, List.mem_cons, List.not_mem_nil, or_false] at hk
    rcases hk with rfl | rfl | rfl | rfl | rfl | rfl <;>
      simp [score_lease_row_eq, rowGetBool_update, hf, Val.toBool]
    · exact lease_mono_liab _ _ _ _ _
    · exact lease_mono_rou _ _ _ _ _
    · exact lease_mono_periods _ _ _ _ _
    · exact lease_mono_opening _ _ _ _ _
    · exact lease_mono_classif _ _ _ _ _
    · exact lease_mono_ip _ _ _ _ _

/-- Witness for C2 at concrete rows: flipping one flag per domain on the
empty row never decreases the score. -/
theorem c2_single_flag_monotone_witness :
    (score_ap_row (Row.ofList [])).1 ≤
      (score_ap_row ((Row.ofList []).update "amount_mismatch" (Val.b true))).1 ∧
    (score_bank_row (Row.ofList [])).1 ≤
      (score_bank_row ((Row.ofList []).update "duplicate_payment" (Val.b true))).1 ∧
    (score_tax_row (Row.ofList [])).1 ≤
      (score_tax_row ((Row.ofList []).update "tax_missing" (Val.b true))).1 ∧
    (score_lease_row (Row.ofList [])).1 ≤
      (score_lease_row ((Row.ofList []).update "missing_periods" (Val.b true))).1 :=
  ⟨(c2_single_flag_monotone (Row.ofList []) "amount_mismatch").1 (by decide) (by decide),
   (c2_single_flag_monotone (Row.ofList []) "duplicate_payment").2.1 (by decide) (by decide),
   (c2_single_flag_monotone (Row.ofList []) "tax_missing").2.2.1 (by decide) (by decide),
   (c2_single_flag_monotone (Row.ofList []) "missing_periods").2.2.2 (by decide) (by decide)⟩

/-! ## Floor-rule lemmas (decided over all flag combinations) -/

lemma ap_floor : ∀ m a l d u : Bool,
    (3 ≤ apFlagCount m a l d u → 90 ≤ (apEval m a l d u).1) ∧
      min (apRaw m a l d u) 100 ≤ (apEval m a l d u).1 := by decide

lemma bank_floor : ∀ n i p a u : Bool,
    (3 ≤ bankFlagCount n i p a u → 90 ≤ (bankEval n i p a u).1) ∧
      min (bankRaw n i p a u) 100 ≤ (bankEval n i p a u).1 := by decide

lemma tax_floor : ∀ a b c d e x : Bool,
    (3 ≤ taxFlagCount a b c d e → 85 ≤ (taxEvalB a b c d e x).1) ∧
      min (taxRawB a b c d e x) 100 ≤ (taxEvalB a b c d e x).1 := by decide

lemma lease_floor : ∀ l r m o c i : Bool,
    (3 ≤ leaseFlagCount l r m o c i → 90 ≤ (leaseEval l r m o c i).1) ∧
      min (leaseRaw l r m o c i) 100 ≤ (leaseEval l r m o c i).1 := by decide

/-- C3: a row with at least 3 true flags scores at least the domain floor
(AP 90, Bank 90, Tax 85, Lease 90), and the floor never lowers a score: the
final score is at least the clamped additive score, floor or no floor. -/
theorem c3_floor_rule : ∀ r : Row,
    (3 ≤ apFlagCount (rowGetBool r "missing_in_GL") (rowGetBool r "amount_mismatch")
        (rowGetBool r "late_posting") (rowGetBool r "duplicate_invoice_number")
        (rowGetBool r "unusual_GL_account") → 90 ≤ (score_ap_row r).1) ∧
    min (apRaw (rowGetBool r "missing_in_GL") (rowGetBool r "amount_mismatch")
        (rowGetBool r "late_posting") (rowGetBool r "duplicate_invoice_number")
        (rowGetBool r "unusual_GL_account")) 100 ≤ (score_ap_row r).1 ∧
    (3 ≤ bankFlagCount (rowGetBool r "no_matching_invoice")
        (rowGetBool r "invoice_marked_paid_but_no_bank_txn") (rowGetBool r "duplicate_payment")
        (rowGetBool r "amount_mismatch") (rowGetBool r "unusual_vendor_payment") →
      90 ≤ (score_bank_row r).1) ∧
    min (bankRaw (rowGetBool r "no_matching_invoice")
        (rowGetBool r "invoice_marked_paid_but_no_bank_txn") (rowGetBool r "duplicate_payment")
        (rowGetBool r "amount_mismatch") (rowGetBool r "unusual_vendor_payment")) 100 ≤
      (score_bank_row r).1 ∧
    (3 ≤ taxFlagCount (rowGetBool r "rate_mismatch") (rowGetBool r "tax_missing")
        (rowGetBool r "tax_on_nontaxable_item") (rowGetBool r "jurisdiction_missing")
        (rowGetBool r "gl_tax_diff_flag") → 85 ≤ (score_tax_row r).1) ∧
    min (taxRaw (rowGetBool r "rate_mismatch") (rowGetBool r "tax_missing")
        (rowGetBool r "tax_on_nontaxable_item") (rowGetBool r "jurisdiction_missing")
        (rowGetBool r "gl_tax_diff_flag") (rowGetRat r "tax_diff_abs")) 100 ≤
      (score_tax_row r).1 ∧
    (3 ≤ leaseFlagCount (rowGetBool r "schedule_to_GL_liability_diff_flag")
        (rowGetBool r "schedule_to_GL_ROU_diff_flag") (rowGetBool r "missing_periods")
        (rowGetBool r "incorrect_opening_entry") (rowGetBool r "classification_flag")
        (rowGetBool r "ip_sum_mismatch") → 90 ≤ (score_lease_row r).1) ∧
    min (leaseRaw (rowGetBool r "schedule_to_GL_liability_diff_flag")
        (rowGetBool r "schedule_to_GL_ROU_diff_flag") (rowGetBool r "missing_periods")
        (rowGetBool r "incorrect_opening_entry") (rowGetBool r "classification_flag")
        (rowGetBool r "ip_sum_mismatch")) 100 ≤ (score_lease_row r).1 := by
  intro r
  refine ⟨?_, ?_, ?_, ?_, ?_, ?_, ?_, ?_⟩
  · rw [score_ap_row_eq]; exact (ap_floor _ _ _ _ _).1
  · rw [score_ap_row_eq]; exact (ap_floor _ _ _ _ _).2
  · rw [score_bank_row_eq]; exact (bank_floor _ _ _ _ _).1
  · rw [score_bank_row_eq]; exact (bank_floor _ _ _ _ _).2
  · rw [score_tax_row_eq]; exact (tax_floor _ _ _ _ _ _).1
  · rw [score_tax_row_eq, taxRaw_eq_taxRawB]; exact (tax_floor _ _ _ _ _ _).2
  · rw [score_lease_row_eq]; exact (lease_floor _ _ _ _ _ _).1
  · rw [score_lease_row_eq]; exact (lease_floor _ _ _ _ _ _).2

/-- Witness for C3 at concrete 3-flag rows in each domain. -/
theorem c3_floor_rule_witness :
    90 ≤ (score_ap_row (Row.ofList [("missing_in_GL", Val.b true),
      ("amount_mismatch", Val.b true), ("late_posting", Val.b true)])).1 ∧
    90 ≤ (score_bank_row (Row.ofList [("no_matching_invoice", Val.b true),
      ("duplicate_payment", Val.b true), ("amount_mismatch", Val.b true)])).1 ∧
    85 ≤ (score_tax_row (Row.ofList [("rate_mismatch", Val.b true),
      ("jurisdiction_missing", Val.b true), ("gl_tax_diff_flag", Val.b true)])).1 ∧
    90 ≤ (score_lease_row (Row.ofList [("schedule_to_GL_liability_diff_flag", Val.b true),
      ("schedule_to_GL_ROU_diff_flag", Val.b true), ("missing_periods", Val.b true)])).1 :=
  ⟨(c3_floor_rule _).1 (by decide),
   (c3_floor_rule _).2.2.1 (by decide),
   (c3_floor_rule _).2.2.2.2.1 (by decide),
   (c3_floor_rule _).2.2.2.2.2.2.1 (by decide)⟩

/-- C4: band boundaries are closed as specified (20 → Low, 21 → Medium,
40 → Medium, 41 → High, 70 → High, 71 → Critical), and on [0,100] the four
bands Low [0,20], Medium (20,40], High (40,70], Critical (70,100] are
exactly the fibers of `classify_risk`, so they partition [0,100] with no
gaps or overlaps; the band is a pure function of the final score. -/
theorem c4_band_boundaries :
    classify_risk 20 = "Low (5–15%)" ∧ classify_risk 21 = "Medium (20–40%)" ∧
    classify_risk 40 = "Medium (20–40%)" ∧ classify_risk 41 = "High (50–80%)" ∧
    classify_risk 70 = "High (50–80%)" ∧ classify_risk 71 = "Critical (85–99%)" ∧
    ∀ s : ℚ, 0 ≤ s → s ≤ 100 →
      (classify_risk s = "Low (5–15%)" ↔ 0 ≤ s ∧ s ≤ 20) ∧
      (classify_risk s = "Medium (20–40%)" ↔ 20 < s ∧ s ≤ 40) ∧
      (classify_risk s = "High (50–80%)" ↔ 40 < s ∧ s ≤ 70) ∧
      (classify_risk s = "Critical (85–99%)" ↔ 70 < s ∧ s ≤ 100) := by
  refine ⟨by decide, by decide, by decide, by decide, by decide, by decide, ?_⟩
  intro s h0 h100
  unfold classify_risk
  split_ifs with h1 h2 h3
  · exact ⟨⟨fun _ => ⟨h0, h1⟩, fun _ => rfl⟩,
      ⟨fun h => absurd h (by decide), fun hs => absurd h1 (not_le.mpr hs.1)⟩,
      ⟨fun h => absurd h (by decide),
        fun hs => absurd h1 (not_le.mpr (lt_trans (by norm_num) hs.1))⟩,
      ⟨fun h => absurd h (by decide),
        fun hs => absurd h1 (not_le.mpr (lt_trans (by norm_num) hs.1))⟩⟩
  · exact ⟨⟨fun h => absurd h (by decide), fun hs => absurd hs.2 h1⟩,
      ⟨fun _ => ⟨not_le.mp h1, h2⟩, fun _ => rfl⟩,
      ⟨fun h => absurd h (by decide), fun hs => absurd h2 (not_le.mpr hs.1)⟩,
      ⟨fun h => absurd h (by decide),
        fun hs => absurd h2 (not_le.mpr (lt_trans (by norm_num) hs.1))⟩⟩
  · exact ⟨⟨fun h => absurd h (by decide),
        fun hs => absurd hs.2 (not_le.mpr (lt_trans (by norm_num) (not_le.mp h2)))⟩,
      ⟨fun h => absurd h (by decide), fun hs => absurd hs.2 h2⟩,
      ⟨fun _ => ⟨not_le.mp h2, h3⟩, fun _ => rfl⟩,
      ⟨fun h => absurd h (by decide), fun hs => absurd h3 (not_le.mpr hs.1)⟩⟩
  · exact ⟨⟨fun h => absurd h (by decide),
        fun hs => absurd hs.2 (not_le.mpr (lt_trans (by norm_num) (not_le.mp h3)))⟩,
      ⟨fun h => absurd h (by decide),
        fun hs => absurd hs.2 (not_le.mpr (lt_trans (by norm_num) (not_le.mp h3)))⟩,
      ⟨fun h => absurd h (by decide), fun hs => absurd hs.2 h3⟩,
      ⟨fun _ => ⟨not_le.mp h3, h100⟩, fun _ => rfl⟩⟩

/-- Witness for C4: at score 45 the partition places the band at High. -/
theorem c4_band_boundaries_witness : classify_risk 45 = "High (50–80%)" :=
  ((c4_band_boundaries.2.2.2.2.2.2 45 (by norm_num) (by norm_num)).2.2.1).mpr
    ⟨by norm_num, by norm_num⟩

/-- C10: `classify_risk` always returns one of the four annotated band
strings (with embedded percentage ranges), the `risk_level` component of
every scoring result is one of those strings, and the four labels are
pairwise distinct. -/
theorem c10_band_labels :
    (∀ s : ℚ, classify_risk s = "Low (5–15%)" ∨ classify_risk s = "Medium (20–40%)" ∨
      classify_risk s = "High (50–80%)" ∨ classify_risk s = "Critical (85–99%)") ∧
    (∀ r : Row,
      ((score_ap_row r).2 = "Low (5–15%)" ∨ (score_ap_row r).2 = "Medium (20–40%)" ∨
        (score_ap_row r).2 = "High (50–80%)" ∨ (score_ap_row r).2 = "Critical (85–99%)") ∧
      ((score_bank_row r).2 = "Low (5–15%)" ∨ (score_bank_row r).2 = "Medium (20–40%)" ∨
        (score_bank_row r).2 = "High (50–80%)" ∨ (score_bank_row r).2 = "Critical (85–99%)") ∧
      ((score_tax_row r).2 = "Low (5–15%)" ∨ (score_tax_row r).2 = "Medium (20–40%)" ∨
        (score_tax_row r).2 = "High (50–80%)" ∨ (score_tax_row r).2 = "Critical (85–99%)") ∧
      ((score_lease_row r).2 = "Low (5–15%)" ∨ (score_lease_row r).2 = "Medium (20–40%)" ∨
        (score_lease_row r).2 = "High (50–80%)" ∨
        (score_lease_row r).2 = "Critical (85–99%)")) ∧
    ("Low (5–15%)" ≠ "Medium (20–40%)" ∧ "Low (5–15%)" ≠ "High (50–80%)" ∧
      "Low (5–15%)" ≠ "Critical (85–99%)" ∧ "Medium (20–40%)" ≠ "High (50–80%)" ∧
      "Medium (20–40%)" ≠ "Critical (85–99%)" ∧ "High (50–80%)" ≠ "Critical (85–99%)") := by
  have hcl : ∀ s : ℚ, classify_risk s = "Low (5–15%)" ∨ classify_risk s = "Medium (20–40%)" ∨
      classify_risk s = "High (50–80%)" ∨ classify_risk s = "Critical (85–99%)" := by
    intro s; unfold classify_risk; split_ifs <;> simp
  refine ⟨hcl, ?_, by decide, by decide, by decide, by decide, by decide, by decide⟩
  intro r
  have hap : (score_ap_row r).2 = classify_risk ((score_ap_row r).1 : ℚ) := by
    rw [score_ap_row_eq]; exact (ap_bounds _ _ _ _ _).2.2
  have hbank : (score_bank_row r).2 = classify_risk ((score_bank_row r).1 : ℚ) := by
    rw [score_bank_row_eq]; exact (bank_bounds _ _ _ _ _).2.2
  have htax : (score_tax_row r).2 = classify_risk ((score_tax_row r).1 : ℚ) := by
    rw [score_tax_row_eq]; exact (tax_bounds _ _ _ _ _ _).2.2
  have hlease : (score_lease_row r).2 = classify_risk ((score_lease_row r).1 : ℚ) := by
    rw [score_lease_row_eq]; exact (lease_bounds _ _ _ _ _ _).2.2
  exact ⟨hap ▸ hcl _, hbank ▸ hcl _, htax ▸ hcl _, hlease ▸ hcl _⟩

/-- C6: an AP record with Total_Invoice_Amount 1000 and Expected_Total 1100
has `amount_mismatch` detected true (the absolute difference exceeds 25),
and with no other flag true `score_ap_row` returns 5 + 30 = 35, band Medium. -/
theorem c6_ap_scenario :
    ap_amount_mismatch 1000 1100 = true ∧
    score_ap_row (Row.ofList [("amount_mismatch", Val.b true)]) =
      (35, "Medium (20–40%)") := by
  refine ⟨?_, by decide⟩
  unfold ap_amount_mismatch
  rw [decide_eq_true_eq]
  norm_num

/-- C7: a Tax record with only `tax_missing` and `gl_tax_diff_flag` true
accumulates 5 + 40 + 25 + 70 = 140 (individual weights plus the combo
bonus), which is clamped to 100 with band Critical. -/
theorem c7_tax_scenario :
    taxRaw false true false false true 0 = 140 ∧
    score_tax_row (Row.ofList [("tax_missing", Val.b true),
      ("gl_tax_diff_flag", Val.b true)]) = (100, "Critical (85–99%)") := by decide

/-- Counterexample to C5: two tax rows that agree on every boolean flag
field (all absent) but differ in the numeric `tax_diff_abs` field receive
different risk scores (5 versus 15), so flags are not the sole input to
`score_tax_row`. -/
theorem c5_counterexample :
    (Row.ofList []) "rate_mismatch" =
      (Row.ofList [("tax_diff_abs", Val.num 10)]) "rate_mismatch" ∧
    (Row.ofList []) "tax_missing" =
      (Row.ofList [("tax_diff_abs", Val.num 10)]) "tax_missing" ∧
    (Row.ofList []) "tax_on_nontaxable_item" =
      (Row.ofList [("tax_diff_abs", Val.num 10)]) "tax_on_nontaxable_item" ∧
    (Row.ofList []) "jurisdiction_missing" =
      (Row.ofList [("tax_diff_abs", Val.num 10)]) "jurisdiction_missing" ∧
    (Row.ofList []) "gl_tax_diff_flag" =
      (Row.ofList [("tax_diff_abs", Val.num 10)]) "gl_tax_diff_flag" ∧
    (score_tax_row (Row.ofList [])).1 = 5 ∧
    (score_tax_row (Row.ofList [("tax_diff_abs", Val.num 10)])).1 = 15 ∧
    score_tax_row (Row.ofList []) ≠
      score_tax_row (Row.ofList [("tax_diff_abs", Val.num 10)]) := by decide

/-- C5 (amended): rows agreeing on all of a domain's boolean flag fields
receive the same (risk_score, risk_level) for AP, Bank and Lease; for Tax
the rows must additionally agree on the numeric `tax_diff_abs` field. -/
theorem c5_amended_flags_determine_score : ∀ r r' : Row,
    ((r "missing_in_GL" = r' "missing_in_GL" ∧ r "amount_mismatch" = r' "amount_mismatch" ∧
      r "late_posting" = r' "late_posting" ∧
      r "duplicate_invoice_number" = r' "duplicate_invoice_number" ∧
      r "unusual_GL_account" = r' "unusual_GL_account") →
      score_ap_row r = score_ap_row r') ∧
    ((r "no_matching_invoice" = r' "no_matching_invoice" ∧
      r "invoice_marked_paid_but_no_bank_txn" = r' "invoice_marked_paid_but_no_bank_txn" ∧
      r "duplicate_payment" = r' "duplicate_payment" ∧
      r "amount_mismatch" = r' "amount_mismatch" ∧
      r "unusual_vendor_payment" = r' "unusual_vendor_payment") →
      score_bank_row r = score_bank_row r') ∧
    ((r "rate_mismatch" = r' "rate_mismatch" ∧ r "tax_missing" = r' "tax_missing" ∧
      r "tax_on_nontaxable_item" = r' "tax_on_nontaxable_item" ∧
      r "jurisdiction_missing" = r' "jurisdiction_missing" ∧
      r "gl_tax_diff_flag" = r' "gl_tax_diff_flag" ∧
      r "tax_diff_abs" = r' "tax_diff_abs") →
      score_tax_row r = score_tax_row r') ∧
    ((r "schedule_to_GL_liability_diff_flag" = r' "schedule_to_GL_liability_diff_flag" ∧
      r "schedule_to_GL_ROU_diff_flag" = r' "schedule_to_GL_ROU_diff_flag" ∧
      r "missing_periods" = r' "missing_periods" ∧
      r "incorrect_opening_entry" = r' "incorrect_opening_entry" ∧
      r "classification_flag" = r' "classification_flag" ∧
      r "ip_sum_mismatch" = r' "ip_sum_mismatch") →
      score_lease_row r = score_lease_row r') := by
  intro r r'
  refine ⟨?_, ?_, ?_, ?_⟩
  · rintro ⟨h1, h2, h3, h4, h5⟩
    unfold score_ap_row
    rw [rowGetBool_congr h1, rowGetBool_congr h2, rowGetBool_congr h3, rowGetBool_congr h4,
      rowGetBool_congr h5]
  · rintro ⟨h1, h2, h3, h4, h5⟩
    unfold score_bank_row
    rw [rowGetBool_congr h1, rowGetBool_congr h2, rowGetBool_congr h3, rowGetBool_congr h4,
      rowGetBool_congr h5]
  · rintro ⟨h1, h2, h3, h4, h5, h6⟩
    unfold score_tax_row
    rw [rowGetBool_congr h1, rowGetBool_congr h2, rowGetBool_congr h3, rowGetBool_congr h4,
      rowGetBool_congr h5, rowGetRat_congr h6]
  · rintro ⟨h1, h2, h3, h4, h5, h6⟩
    unfold score_lease_row
    rw [rowGetBool_congr h1, rowGetBool_congr h2, rowGetBool_congr h3, rowGetBool_congr h4,
      rowGetBool_congr h5, rowGetBool_congr h6]

/-- Witness for the amended C5: two concrete rows differing only in an
unrelated extra field score identically in all four domains. -/
theorem c5_amended_witness :
    score_ap_row (Row.ofList [("amount_mismatch", Val.b true), ("Extra_Field", Val.num 3)]) =
      score_ap_row (Row.ofList [("amount_mismatch", Val.b true)]) ∧
    score_bank_row (Row.ofList [("amount_mismatch", Val.b true), ("Extra_Field", Val.num 3)]) =
      score_bank_row (Row.ofList [("amount_mismatch", Val.b true)]) ∧
    score_tax_row (Row.ofList [("amount_mismatch", Val.b true), ("Extra_Field", Val.num 3)]) =
      score_tax_row (Row.ofList [("amount_mismatch", Val.b true)]) ∧
    score_lease_row (Row.ofList [("amount_mismatch", Val.b true), ("Extra_Field", Val.num 3)]) =
      score_lease_row (Row.ofList [("amount_mismatch", Val.b true)]) :=
  ⟨(c5_amended_flags_determine_score _ _).1
      ⟨by decide, by decide, by decide, by decide, by decide⟩,
   (c5_amended_flags_determine_score _ _).2.1
      ⟨by decide, by decide, by decide, by decide, by decide⟩,
   (c5_amended_flags_determine_score _ _).2.2.1
      ⟨by decide, by decide, by decide, by decide, by decide, by decide⟩,
   (c5_amended_flags_determine_score _ _).2.2.2
      ⟨by decide, by decide, by decide, by decide, by decide, by decide⟩⟩

/-- C8: for each scoring function, a row with an absent flag field is
scored exactly as the same row with that flag explicitly false, and for
`score_tax_row` an absent `tax_diff_abs` is scored as an explicit 0; the
functions are total, so every such call returns a result. -/
theorem c8_missing_fields_default : ∀ (r : Row) (k : String),
    (k ∈ apFlagKeys → r k = none →
      score_ap_row r = score_ap_row (r.update k (Val.b false))) ∧
    (k ∈ bankFlagKeys → r k = none →
      score_bank_row r = score_bank_row (r.update k (Val.b false))) ∧
    (k ∈ taxFlagKeys → r k = none →
      score_tax_row r = score_tax_row (r.update k (Val.b false))) ∧
    (k ∈ leaseFlagKeys → r k = none →
      score_lease_row r = score_lease_row (r.update k (Val.b false))) ∧
    (r "tax_diff_abs" = none →
      score_tax_row r = score_tax_row (r.update "tax_diff_abs" (Val.num 0))) := by
  intro r k
  refine ⟨?_, ?_, ?_, ?_, ?_⟩
  · intro hk hn
    simp only [apFlagKeys, List.mem_cons, List.not_mem_nil, or_false] at hk
    rcases hk with rfl | rfl | rfl | rfl | rfl <;>
      simp [score_ap_row_eq, rowGetBool_update, Val.toBool,
        rowGetBool_eq_false_of_none r _ hn]
  · intro hk hn
    simp only [bankFlagKeys, List.mem_cons, List.not_mem_nil, or_false] at hk
    rcases hk with rfl | rfl | rfl | rfl | rfl <;>
      simp [score_bank_row_eq, rowGetBool_update, Val.toBool,
        rowGetBool_eq_false_of_none r _ hn]
  · intro hk hn
    simp only [taxFlagKeys, List.mem_cons, List.not_mem_nil, or_false] at hk
    rcases hk with rfl | rfl | rfl | rfl | rfl <;>
      simp [score_tax_row_eq, rowGetBool_update, rowGetRat_update, Val.toBool,
        rowGetBool_eq_false_of_none r _ hn]
  · intro hk hn
    simp only [leaseFlagKeys, List.mem_cons, List.not_mem_nil, or_false] at hk
    rcases hk with rfl | rfl | rfl | rfl | rfl | rfl <;>
      simp [score_lease_row_eq, rowGetBool_update, Val.toBool,
        rowGetBool_eq_false_of_none r _ hn]
  · intro hn
    simp [score_tax_row_eq, rowGetBool_update, rowGetRat_update, Val.toRat,
      rowGetRat_eq_zero_of_none r _ hn]

/-- Witness for C8 on the empty row: absent flags behave as explicit false
and an absent `tax_diff_abs` behaves as 0. -/
theorem c8_missing_fields_default_witness :
    score_ap_row (Row.ofList []) =
      score_ap_row ((Row.ofList []).update "late_posting" (Val.b false)) ∧
    score_bank_row (Row.ofList []) =
      score_bank_row ((Row.ofList []).update "duplicate_payment" (Val.b false)) ∧
    score_tax_row (Row.ofList []) =
      score_tax_row ((Row.ofList []).update "tax_missing" (Val.b false)) ∧
    score_lease_row (Row.ofList []) =
      score_lease_row ((Row.ofList []).update "missing_periods" (Val.b false)) ∧
    score_tax_row (Row.ofList []) =
      score_tax_row ((Row.ofList []).update "tax_diff_abs" (Val.num 0)) :=
  ⟨(c8_missing_fields_default (Row.ofList []) "late_posting").1 (by decide) (by decide),
   (c8_missing_fields_default (Row.ofList []) "duplicate_payment").2.1 (by decide) (by decide),
   (c8_missing_fields_default (Row.ofList []) "tax_missing").2.2.1 (by decide) (by decide),
   (c8_missing_fields_default (Row.ofList []) "missing_periods").2.2.2.1
     (by decide) (by decide),
   (c8_missing_fields_default (Row.ofList []) "tax_diff_abs").2.2.2.2 (by decide)⟩

/-! ## Reserved-flag elimination for claim C9 -/

/-- The body of `score_bank_row` with the reserved
`invoice_marked_paid_but_no_bank_txn` branch (+40 and its combo mention)
removed: the scoring reachable on pipeline-produced bank rows. -/
def bankEvalReduced (no_match duplicate_payment amount_mismatch unusual_vendor : Bool) :
    ℕ × String :=
  let score := 5 + (if unusual_vendor then 10 else 0)
    + (if amount_mismatch then 25 else 0)
    + (if no_match then 50 else 0)
    + (if duplicate_payment then 60 else 0)
    + (if duplicate_payment && amount_mismatch then 15 else 0)
    + (if no_match && (duplicate_payment || amount_mismatch || unusual_vendor) then 20 else 0)
  let flags := (if no_match then 1 else 0) + (if duplicate_payment then 1 else 0)
    + (if amount_mismatch then 1 else 0) + (if unusual_vendor then 1 else 0)
  let score2 := if 3 ≤ flags then max score 90 else score
  let score3 := min score2 100
  (score3, classify_risk (score3 : ℚ))

/-- The body of `score_lease_row` with the reserved
`incorrect_opening_entry` (+50), `classification_flag` (+45) and
`rou_diff_flag & incorrect_opening` combo (+35) branches removed. -/
def leaseEvalReduced (liab_diff_flag rou_diff_flag missing_periods ip_mismatch : Bool) :
    ℕ × String :=
  let score := 5 + (if liab_diff_flag then 20 else 0) + (if rou_diff_flag then 20 else 0)
    + (if missing_periods then 40 else 0) + (if ip_mismatch then 50 else 0)
    + (if liab_diff_flag && missing_periods then 30 else 0)
  let flags := (if liab_diff_flag then 1 else 0) + (if rou_diff_flag then 1 else 0)
    + (if missing_periods then 1 else 0) + (if ip_mismatch then 1 else 0)
  let score2 := if 3 ≤ flags then max score 90 else score
  let score3 := min score2 100
  (score3, classify_risk (score3 : ℚ))

lemma bank_reduced_eq : ∀ n p a u : Bool,
    bankEval n false p a u = bankEvalReduced n p a u := by decide

lemma lease_reduced_eq : ∀ l r m i : Bool,
    leaseEval l r m false false i = leaseEvalReduced l r m i := by decide

/-- C9: after the pipeline's per-row assignments (validator.py lines 109
and 179–180) the reserved flags read false on every row, and the scores of
such rows coincide with scoring bodies from which the +40, +50, +45 and
combo +35 branches have been removed — those branches are unreachable. -/
theorem c9_reserved_flags_false : ∀ r : Row,
    rowGetBool (bank_prepare r) "invoice_marked_paid_but_no_bank_txn" = false ∧
    rowGetBool (lease_prepare r) "incorrect_opening_entry" = false ∧
    rowGetBool (lease_prepare r) "classification_flag" = false ∧
    score_bank_row (bank_prepare r) = bankEvalReduced (rowGetBool r "no_matching_invoice")
      (rowGetBool r "duplicate_payment") (rowGetBool r "amount_mismatch")
      (rowGetBool r "unusual_vendor_payment") ∧
    score_lease_row (lease_prepare r) = leaseEvalReduced
      (rowGetBool r "schedule_to_GL_liability_diff_flag")
      (rowGetBool r "schedule_to_GL_ROU_diff_flag") (rowGetBool r "missing_periods")
      (rowGetBool r "ip_sum_mismatch") := by
  intro r
  refine ⟨?_, ?_, ?_, ?_, ?_⟩
  · simp [bank_prepare, rowGetBool_update, Val.toBool]
  · simp [lease_prepare, rowGetBool_update, Val.toBool]
  · simp [lease_prepare, rowGetBool_update, Val.toBool]
  · rw [score_bank_row_eq]
    simp [bank_prepare, rowGetBool_update, Val.toBool]
    exact bank_reduced_eq _ _ _ _
  · rw [score_lease_row_eq]
    simp [lease_prepare, rowGetBool_update, Val.toBool]
    exact lease_reduced_eq _ _ _ _
